import Mathlib

/-!
Verification of the webhook weather bot in `weather.py`.

The Python module is embedded shallowly:
* Python exceptions (`KeyError`, `IndexError`, `json.JSONDecodeError`) become
  `Except PyErr`;
* every outbound HTTP request is recorded in an explicit list of `Call`s,
  and the responses of the three external providers (plus Telegram's file
  API) are supplied by an `Oracle` of pure response functions, so the
  handler is a function of its event, configuration and collaborator
  responses;
* Python floats are embedded as rationals; `round` is Python's
  round-half-to-even (`pyRound`); numeric rendering agrees with Python for
  integral values, which is all the claims inspect;
* module-level configuration (read once from the environment at import
  time) becomes an explicit `Config` record.
-/

/-- Python exceptions that the module can raise. -/
inductive PyErr where
  | keyError
  | indexError
  | jsonDecodeError
deriving DecidableEq

/-- A Python value as it appears in provider JSON: `None`, a number, or a
string.  Used for the geocoder's `geo_lat`/`geo_lon` fields, which the code
passes around untyped and tests for truthiness. -/
inductive PyVal where
  | null
  | num (q : ℚ)
  | str (s : String)
deriving DecidableEq

/-- Python truthiness: `None`, `0` and `""` are falsy, everything else in
our value universe is truthy. -/
def truthy : PyVal → Bool
  | PyVal.null => false
  | PyVal.num q => decide (q ≠ 0)
  | PyVal.str s => decide (s ≠ "")

/-- Python 3 `round` to an integer: round half to even. -/
def pyRound (q : ℚ) : ℤ :=
  let f : ℤ := ⌊q⌋
  let frac : ℚ := q - (f : ℚ)
  if frac < 1 / 2 then f
  else if 1 / 2 < frac then f + 1
  else if f % 2 = 0 then f else f + 1

/-- The invocation response envelope type (`{'statusCode': ..., 'body': ...}`). -/
structure FuncResponse where
  statusCode : ℕ
  body : String
deriving DecidableEq

/-- `FUNC_RESPONSE = {'statusCode': 200, 'body': ''}` (weather.py line 5). -/
def FUNC_RESPONSE : FuncResponse := ⟨200, ""⟩

/-- `MAX_VOICE_DURATION = 30` (weather.py line 13). -/
def MAX_VOICE_DURATION : ℤ := 30

/-- The module-level environment configuration (weather.py lines 6-11);
each field is `none` when the environment variable is absent. -/
structure Config where
  tgBotToken : Option String
  owApiKey : Option String
  ddApiKey : Option String
  ddSecKey : Option String
  ysApiKey : Option String

/-- A Telegram location payload. -/
structure Location where
  latitude : ℚ
  longitude : ℚ

/-- A Telegram voice payload (`file_id`, `duration`). -/
structure Voice where
  fileId : String
  duration : ℤ
deriving DecidableEq

/-- A Telegram message: its id, chat id, and the optional `location`,
`text` and `voice` keys the dispatcher inspects. -/
structure Message where
  messageId : ℤ
  chatId : ℤ
  location : Option Location
  text : Option String
  voice : Option Voice

/-- A parsed Telegram update: it may or may not contain a `message` key. -/
structure Update where
  message : Option Message

/-- The `body` string of the invocation event, characterised by its parse
outcome: either it is not valid JSON (`json.loads` raises) or it parses to
an update. -/
inductive Body where
  | malformed
  | update (u : Update)

/-- The invocation event: `body` is `none` when the event has no `body`
key (so `event['body']` raises `KeyError`). -/
structure Event where
  body : Option Body

/-- One outbound HTTP request made by the module, with the arguments the
claims inspect. -/
inductive Call where
  | sendMessage (chatId messageId : ℤ) (text : String)
  | sendVoice (chatId messageId : ℤ)
  | dadataClean (address : String)
  | owWeather (lat lon : PyVal)
  | getFile (fileId : String)
  | fileDownload (filePath : String)
  | sttRecognize
deriving DecidableEq

/-- The `text` argument of `send_message`: the code distinguishes a plain
string from a dict (voice payload) by `isinstance`. -/
inductive Content where
  | strC (s : String)
  | dictC

/-- `send_message` (weather.py lines 15-26): posts to `sendMessage` for a
string, to `sendVoice` for a dict, addressed by the originating message's
chat id and message id.  Returns the requests it performs. -/
def send_message (text : Content) (message : Message) : List Call :=
  match text with
  | Content.strC s => [Call.sendMessage message.chatId message.messageId s]
  | Content.dictC => [Call.sendVoice message.chatId message.messageId]

/-- One candidate in the geocoder's response: quality code and
coordinates.  `geo_lat`/`geo_lon` arrive untyped (string, number or null). -/
structure DadataResult where
  qc : ℤ
  geoLat : PyVal
  geoLon : PyVal

/-- The geocoder's HTTP response: `ok` is `requests`' success flag, and
`results` the parsed JSON list of candidates. -/
structure DadataResp where
  ok : Bool
  results : List DadataResult

/-- The speech-recognition provider's HTTP response: success flag and the
recognised text (the `result` field, read only when `ok`). -/
structure SttResp where
  ok : Bool
  result : String

/-- One element of the weather provider's `weather` array. -/
structure WeatherCond where
  description : Option String

/-- The weather provider's `main` object; `none` fields are absent keys. -/
structure WeatherMain where
  temp : Option ℚ
  feels_like : Option ℚ
  pressure : Option ℚ
  humidity : Option ℚ

/-- The weather provider's `wind` object. -/
structure WeatherWind where
  speed : Option ℚ
  deg : Option ℚ

/-- The weather provider's `sys` object (sunrise/sunset epoch seconds). -/
structure WeatherSys where
  sunrise : Option ℤ
  sunset : Option ℤ

/-- The weather provider's JSON response; every key the code indexes is an
`Option`, `none` meaning the key is absent (indexing raises `KeyError`). -/
structure WeatherResp where
  weather : Option (List WeatherCond)
  main : Option WeatherMain
  visibility : Option ℚ
  wind : Option WeatherWind
  sys : Option WeatherSys

/-- The pure responses of all external collaborators for one invocation:
geocoder keyed by address, weather provider keyed by coordinates,
Telegram `getFile` (the `result.file_path` of its JSON, `none` when the
keys are missing), raw file download keyed by path, speech recognition
keyed by the downloaded audio bytes, and the server's fixed UTC offset in
seconds (the local zone used by `datetime.fromtimestamp`). -/
structure Oracle where
  dadata : String → DadataResp
  weather : PyVal → PyVal → WeatherResp
  filePath : String → Option String
  download : String → String
  stt : String → SttResp
  tzOffset : ℤ

/-- The fixed `/start` onboarding reply (weather.py lines 46-47). -/
def startText : String :=
  "Введите адрес текстовым сообщением, голосовым сообщением или отправьте свою геолокацию, чтобы получить информацию о погоде"

/-- The fixed too-long-voice reply (weather.py line 62). -/
def tooLongText : String :=
  "Я не могу понять голосовое сообщение длительностью более 30 секунд."

/-- The fixed unsupported-message-type reply (weather.py lines 64-66). -/
def unsupportedText : String :=
  "Я не могу ответить на такой тип сообщения.\n\nНо могу ответить на:\n- Текстовое сообщение с названием населенного пункта.\n- Голосовое сообщение с названием населенного пункта.\n- Сообщение с точкой на карте."

/-- The fixed transcription-failure reply (weather.py line 143). -/
def sttFailText : String :=
  "Не удалось распознать голосовое сообщение."

/-- The place-not-found reply quoting the address (weather.py line 78). -/
def notFoundText (address : String) : String :=
  "Я не нашел населенный пункт \"" ++ address ++ "\"."

/-- Indexing a dict with a required key: `d['k']` raises `KeyError` when
the key is absent. -/
def getK {α : Type} (x : Option α) : Except PyErr α :=
  match x with
  | some a => Except.ok a
  | none => Except.error PyErr.keyError

/-- Indexing a list at position 0: `xs[0]` raises `IndexError` when empty. -/
def getIdx0 {α : Type} (x : List α) : Except PyErr α :=
  match x with
  | a :: _ => Except.ok a
  | [] => Except.error PyErr.indexError

/-- Whether an `Except` is a success. -/
def exceptOk {ε α : Type} : Except ε α → Bool
  | Except.ok _ => true
  | Except.error _ => false

/-- Rendering of a number in an f-string; agrees with Python exactly on
integral values (the only ones the claims inspect). -/
def fmtQ (q : ℚ) : String :=
  if q.den = 1 then toString q.num else toString q

/-- Zero-padded two-digit rendering used by `strftime`. -/
def two_digits (n : ℤ) : String :=
  if n < 10 then "0" ++ toString n else toString n

/-- `get_time_from_timestamp` (weather.py lines 153-157):
`datetime.fromtimestamp(ts).strftime("%H:%M")`, under the process's fixed
UTC offset `tzOffset` in seconds (DST is not modelled; no claim depends on
the zone). -/
def get_time_from_timestamp (tzOffset : ℤ) (timestamp : ℤ) : String :=
  let localSecs : ℤ := timestamp + tzOffset
  let h : ℤ := (localSecs.fdiv 3600) % 24
  let m : ℤ := (localSecs.fdiv 60) % 60
  two_digits h ++ ":" ++ two_digits m

/-- The compass list of `get_wind_direction` (weather.py line 148),
Russian one- and two-letter points, North first, clockwise. -/
def directions : List String := ["С", "СВ", "В", "ЮВ", "Ю", "ЮЗ", "З", "СЗ"]

/-- `get_wind_direction` (weather.py lines 146-150):
`directions[round(degrees / 45) % 8]`.  The index is always `< 8`, so the
`getD` default is never taken. -/
def get_wind_direction (degrees : ℚ) : String :=
  directions.getD ((pyRound (degrees / 45)).emod 8).toNat ""

/-- `info_weather.get('visibility', 'нет данных')` as rendered into the
report: the number when present, the no-data sentinel otherwise. -/
def visibility_display (v : Option ℚ) : String :=
  match v with
  | some q => fmtQ q
  | none => "нет данных"

/-- The report template of `get_weather_info` (weather.py lines 111-114),
with every interpolated value as a parameter. -/
def weather_report (descr : String) (temperature feels_like pressure humidity : ℤ)
    (visibility wind_speed wind_direction sunrise sunset : String) : String :=
  descr ++ ".\nТемпература " ++ toString temperature ++ " ℃, ощущается как " ++
    toString feels_like ++ " ℃.\nАтмосферное давление " ++ toString pressure ++
    " мм рт. ст.\nВлажность " ++ toString humidity ++ "%.\nВидимость " ++ visibility ++
    " метров.\nВетер " ++ wind_speed ++ " м/с " ++ wind_direction ++
    ".\nВосход солнца " ++ sunrise ++ " МСК. Закат " ++ sunset ++ " МСК."

/-- The field extraction and formatting of `get_weather_info` (weather.py
lines 100-116), as a pure function of the provider's parsed response:
every required key is indexed directly (raising on absence, in source
order), `visibility` alone falls back to the no-data sentinel, and
pressure is converted by `round(pressure / 1.333)`. -/
def format_weather (iw : WeatherResp) (tzOffset : ℤ) : Except PyErr String := do
  let warr ← getK iw.weather
  let w0 ← getIdx0 warr
  let weather_description ← getK w0.description
  let mainO ← getK iw.main
  let tempQ ← getK mainO.temp
  let feelsQ ← getK mainO.feels_like
  let pressureQ ← getK mainO.pressure
  let humidityQ ← getK mainO.humidity
  let visibility := visibility_display iw.visibility
  let windO ← getK iw.wind
  let windSpeedQ ← getK windO.speed
  let windDegQ ← getK windO.deg
  let sysO ← getK iw.sys
  let sunriseTs ← getK sysO.sunrise
  let sunsetTs ← getK sysO.sunset
  pure (weather_report weather_description (pyRound tempQ) (pyRound feelsQ)
    (pyRound (pressureQ / (1333 / 1000))) (pyRound humidityQ) visibility
    (fmtQ windSpeedQ) (get_wind_direction windDegQ)
    (get_time_from_timestamp tzOffset sunriseTs)
    (get_time_from_timestamp tzOffset sunsetTs))

/-- `get_weather_info` (weather.py lines 94-116): one GET to the weather
provider, then field extraction and formatting of its response. -/
def get_weather_info (o : Oracle) (lat lon : PyVal) : Except PyErr String × List Call :=
  (format_weather (o.weather lat lon) o.tzOffset, [Call.owWeather lat lon])

/-- `get_coords_from_address` (weather.py lines 82-91): POST the address
to the geocoder; on HTTP success take the first candidate and, when its
quality code is exactly 0, return its coordinate pair; any other quality
code or a failed call returns `(None, None)`; an empty candidate list
makes `r.json()[0]` raise `IndexError`. -/
def get_coords_from_address (o : Oracle) (address : String) :
    Except PyErr (PyVal × PyVal) × List Call :=
  let resp := o.dadata address
  let res : Except PyErr (PyVal × PyVal) :=
    if resp.ok then
      match resp.results with
      | [] => Except.error PyErr.indexError
      | r :: _ =>
        if r.qc = 0 then Except.ok (r.geoLat, r.geoLon)
        else Except.ok (PyVal.null, PyVal.null)
    else Except.ok (PyVal.null, PyVal.null)
  (res, [Call.dadataClean address])

/-- `get_echo_text` (weather.py lines 72-79): resolve the address; when
both coordinates are truthy (`if lat and lon`) fetch and format weather,
otherwise reply that the place was not found. -/
def get_echo_text (o : Oracle) (address : String) : Except PyErr String × List Call :=
  let gc := get_coords_from_address o address
  match gc.1 with
  | Except.error e => (Except.error e, gc.2)
  | Except.ok (lat, lon) =>
    if truthy lat && truthy lon then
      let wi := get_weather_info o lat lon
      (wi.1, gc.2 ++ wi.2)
    else (Except.ok (notFoundText address), gc.2)

/-- `process_location_message` (weather.py lines 119-123): pass the
location's coordinates straight to the weather call. -/
def process_location_message (o : Oracle) (location : Location) :
    Except PyErr String × List Call :=
  get_weather_info o (PyVal.num location.latitude) (PyVal.num location.longitude)

/-- `process_voice_message` (weather.py lines 126-143): resolve the file
path via `getFile` (raising if the response lacks the path keys), download
the audio, POST it to speech recognition; on success treat the recognised
text like a typed address, otherwise return the fixed failure reply. -/
def process_voice_message (o : Oracle) (message : Message) :
    Except PyErr String × List Call :=
  match message.voice with
  | none => (Except.error PyErr.keyError, [])
  | some v =>
    let log1 := [Call.getFile v.fileId]
    match o.filePath v.fileId with
    | none => (Except.error PyErr.keyError, log1)
    | some file_path =>
      let audio_file := o.download file_path
      let log2 := log1 ++ [Call.fileDownload file_path]
      let stt := o.stt audio_file
      let log3 := log2 ++ [Call.sttRecognize]
      if stt.ok then
        let ge := get_echo_text o stt.result
        (ge.1, log3 ++ ge.2)
      else (Except.ok sttFailText, log3)

/-- Outcome of the dispatch section of `handler` (weather.py lines
42-66): an early return (`/start` sends its own reply; missing branch
credentials return silently), a propagating exception, or an echo text
that falls through to the single shared send at line 68. -/
inductive DispatchStep where
  | early (resp : FuncResponse) (log : List Call)
  | fail (e : PyErr) (log : List Call)
  | echo (text : String) (log : List Call)

/-- The branch selection of `handler` (weather.py lines 42-66): location
first, then text (with the `/start` short-circuit and the geocoder
credential guard; `.encode('utf-8').decode('utf-8')` is the identity on
the text), then voice (speech credential guard, 30-second limit), else the
unsupported-type reply. -/
def dispatch (cfg : Config) (o : Oracle) (msg : Message) : DispatchStep :=
  match msg.location with
  | some loc =>
    let r := process_location_message o loc
    match r.1 with
    | Except.ok t => DispatchStep.echo t r.2
    | Except.error e => DispatchStep.fail e r.2
  | none =>
    match msg.text with
    | some t =>
      if t = "/start" then
        DispatchStep.early FUNC_RESPONSE (send_message (Content.strC startText) msg)
      else if cfg.ddApiKey.isNone || cfg.ddSecKey.isNone then
        DispatchStep.early FUNC_RESPONSE []
      else
        let r := get_echo_text o t
        match r.1 with
        | Except.ok s => DispatchStep.echo s r.2
        | Except.error e => DispatchStep.fail e r.2
    | none =>
      match msg.voice with
      | some v =>
        if cfg.ysApiKey.isNone then DispatchStep.early FUNC_RESPONSE []
        else if v.duration ≤ MAX_VOICE_DURATION then
          let r := process_voice_message o msg
          match r.1 with
          | Except.ok s => DispatchStep.echo s r.2
          | Except.error e => DispatchStep.fail e r.2
        else DispatchStep.echo tooLongText []
      | none => DispatchStep.echo unsupportedText []

/-- `handler` (weather.py lines 29-69): credential guards, `event['body']`
(raising `KeyError` when absent), `json.loads` (raising on malformed
JSON), the `message` guard, the dispatch, and the shared send of the echo
text followed by the fixed success envelope. -/
def handler (cfg : Config) (o : Oracle) (event : Event) :
    Except PyErr FuncResponse × List Call :=
  if cfg.tgBotToken.isNone then (Except.ok FUNC_RESPONSE, [])
  else if cfg.owApiKey.isNone then (Except.ok FUNC_RESPONSE, [])
  else
    match event.body with
    | none => (Except.error PyErr.keyError, [])
    | some Body.malformed => (Except.error PyErr.jsonDecodeError, [])
    | some (Body.update u) =>
      match u.message with
      | none => (Except.ok FUNC_RESPONSE, [])
      | some msg =>
        match dispatch cfg o msg with
        | DispatchStep.early resp log => (Except.ok resp, log)
        | DispatchStep.fail e log => (Except.error e, log)
        | DispatchStep.echo t log =>
          (Except.ok FUNC_RESPONSE, log ++ send_message (Content.strC t) msg)

/-- Whether a call is an outbound reply send. -/
def isSend : Call → Bool
  | Call.sendMessage _ _ _ => true
  | Call.sendVoice _ _ => true
  | _ => false

/-- Number of outbound reply sends in a call log. -/
def sendCount (log : List Call) : ℕ := (log.filter isSend).length

/-- The texts of the outbound text replies in a call log. -/
def replyTexts (log : List Call) : List String :=
  log.filterMap fun c =>
    match c with
    | Call.sendMessage _ _ t => some t
    | _ => none

/-- One invocation together with the module state it leaves behind.  The
module's only mutable process-wide state is the configuration read at
import; the handler body contains no assignment to any module global, so
an invocation returns the module state unchanged. -/
def handler_invocation (st : Config) (o : Oracle) (e : Event) :
    (Except PyErr FuncResponse × List Call) × Config :=
  (handler st o e, st)

/-- Two consecutive invocations on the same event and the same
collaborator responses, the second starting from the module state the
first left behind. -/
def invoke_twice (st : Config) (o : Oracle) (e : Event) :
    (Except PyErr FuncResponse × List Call) × (Except PyErr FuncResponse × List Call) :=
  let r1 := handler_invocation st o e
  let r2 := handler_invocation r1.2 o e
  (r1.1, r2.1)

/-- Spec-side compass list: eight points starting at North, clockwise. -/
def compassPoints : List String := ["N", "NE", "E", "SE", "S", "SW", "W", "NW"]

/-- The Russian rendering of each spec-side compass point. -/
def russianPoint : String → String
  | "N" => "С"
  | "NE" => "СВ"
  | "E" => "В"
  | "SE" => "ЮВ"
  | "S" => "Ю"
  | "SW" => "ЮЗ"
  | "W" => "З"
  | "NW" => "СЗ"
  | _ => ""

/-- Spec-side wind direction: the compass point at index
`round(degrees / 45) mod 8` of the spec's ordered list. -/
def wind_direction_spec (degrees : ℚ) : String :=
  compassPoints.getD ((pyRound (degrees / 45)).emod 8).toNat ""

/-- Whether a weather response carries every field the formatter indexes
directly, i.e. everything it extracts except the optional `visibility`. -/
def requiredPresent (iw : WeatherResp) : Bool :=
  match iw.weather with
  | none => false
  | some [] => false
  | some (c :: _) =>
    c.description.isSome &&
    (match iw.main with
     | none => false
     | some m => m.temp.isSome && m.feels_like.isSome && m.pressure.isSome && m.humidity.isSome) &&
    (match iw.wind with
     | none => false
     | some w => w.speed.isSome && w.deg.isSome) &&
    (match iw.sys with
     | none => false
     | some s => s.sunrise.isSome && s.sunset.isSome)

/-! ### Concrete fixtures used by the witnesses -/

/-- A configuration with every credential present. -/
def fullConfig : Config :=
  ⟨some "tg-token", some "ow-key", some "dd-key", some "dd-secret", some "ys-key"⟩

/-- A configuration whose messaging-platform credential is absent. -/
def noTgConfig : Config :=
  ⟨none, some "ow-key", some "dd-key", some "dd-secret", some "ys-key"⟩

/-- A message carrying the `/start` command. -/
def startMessage : Message := ⟨1, 100, none, some "/start", none⟩

/-- A message carrying a 31-second voice recording. -/
def longVoiceMessage : Message := ⟨3, 100, none, none, some ⟨"file-3", 31⟩⟩

/-- A complete weather-provider response. -/
def sampleWeatherResp : WeatherResp :=
  ⟨some [⟨some "ясно"⟩], some ⟨some 10, some 8, some 1013, some 50⟩, some 10000,
   some ⟨some 3, some 40⟩, some ⟨some 1600000000, some 1600040000⟩⟩

/-- The same weather response with the `visibility` key absent. -/
def sampleWeatherRespNoVis : WeatherResp :=
  ⟨some [⟨some "ясно"⟩], some ⟨some 10, some 8, some 1013, some 50⟩, none,
   some ⟨some 3, some 40⟩, some ⟨some 1600000000, some 1600040000⟩⟩

/-- Collaborators that geocode every address with quality code 0 to the
string coordinates ("55.0", "37.0") and answer `sampleWeatherResp`; the
server zone is UTC+3. -/
def sampleOracle : Oracle :=
  ⟨fun _ => ⟨true, [⟨0, PyVal.str "55.0", PyVal.str "37.0"⟩]⟩,
   fun _ _ => sampleWeatherResp,
   fun _ => some "voice/file_0.oga",
   fun _ => "audio-bytes",
   fun _ => ⟨true, "Москва"⟩,
   10800⟩

/-- Collaborators whose geocoder answers with quality code 1. -/
def badQcOracle : Oracle :=
  ⟨fun _ => ⟨true, [⟨1, PyVal.str "55.0", PyVal.str "37.0"⟩]⟩,
   fun _ _ => sampleWeatherResp,
   fun _ => some "voice/file_0.oga",
   fun _ => "audio-bytes",
   fun _ => ⟨true, "Москва"⟩,
   10800⟩

/-- Collaborators whose geocoder answers quality code 0 but with the
falsy latitude `0`. -/
def falsyOracle : Oracle :=
  ⟨fun _ => ⟨true, [⟨0, PyVal.num 0, PyVal.str "37.0"⟩]⟩,
   fun _ _ => sampleWeatherResp,
   fun _ => some "voice/file_0.oga",
   fun _ => "audio-bytes",
   fun _ => ⟨true, "Москва"⟩,
   10800⟩

/-! ### Helper lemmas -/

/-- Send counting distributes over log concatenation. -/
theorem sendCount_append (a b : List Call) :
    sendCount (a ++ b) = sendCount a + sendCount b := by
  simp [sendCount, List.filter_append]

/-- The weather call produces no sends. -/
theorem sendCount_get_weather_info (o : Oracle) (lat lon : PyVal) :
    sendCount (get_weather_info o lat lon).2 = 0 := rfl

/-- Address resolution and weather fetching produce no sends. -/
theorem sendCount_get_echo_text (o : Oracle) (address : String) :
    sendCount (get_echo_text o address).2 = 0 := by
  simp only [get_echo_text]
  rcases h : (get_coords_from_address o address).1 with e | ⟨lat, lon⟩
  · simp [h, get_coords_from_address, sendCount, isSend]
  · simp only [h]
    by_cases ht : truthy lat && truthy lon
    · simp [ht, get_coords_from_address, get_weather_info, sendCount, isSend]
    · simp [ht, get_coords_from_address, sendCount, isSend]

/-- The voice pipeline produces no sends. -/
theorem sendCount_process_voice (o : Oracle) (msg : Message) :
    sendCount (process_voice_message o msg).2 = 0 := by
  obtain ⟨mid, cid, loc, txt, vc⟩ := msg
  cases vc with
  | none => rfl
  | some v =>
    dsimp only [process_voice_message]
    cases hp : o.filePath v.fileId with
    | none => rfl
    | some fp =>
      by_cases hs : (o.stt (o.download fp)).ok
      · simp only [hs, if_true]
        rw [sendCount_append, sendCount_append, sendCount_append,
          sendCount_get_echo_text]
        rfl
      · simp [hs, sendCount, isSend]

/-- Sending a text reply is exactly one send. -/
theorem sendCount_send_message_str (s : String) (m : Message) :
    sendCount (send_message (Content.strC s) m) = 1 := rfl

/-- The dispatch section sends at most once (only the `/start` early
return sends itself), always with the fixed envelope on early return, and
the fall-through branches accumulate no sends before the shared send. -/
theorem dispatch_sends (cfg : Config) (o : Oracle) (msg : Message) :
    match dispatch cfg o msg with
    | DispatchStep.early r log => sendCount log ≤ 1 ∧ r = FUNC_RESPONSE
    | DispatchStep.fail _ log => sendCount log = 0
    | DispatchStep.echo _ log => sendCount log = 0 := by
  obtain ⟨mid, cid, loc, txt, vc⟩ := msg
  cases loc with
  | some l =>
    dsimp only [dispatch]
    rcases h : (process_location_message o l).1 with e | t <;>
      simp only [h] <;> exact sendCount_get_weather_info o _ _
  | none =>
    cases txt with
    | some t =>
      dsimp only [dispatch]
      by_cases hst : t = "/start"
      · simp [hst, send_message, sendCount, isSend]
      · simp only [hst, reduceIte]
        by_cases hdd : cfg.ddApiKey.isNone || cfg.ddSecKey.isNone
        · simp [hdd, sendCount]
        · simp only [hdd, if_false, Bool.false_eq_true]
          rcases h : (get_echo_text o t).1 with e | s <;>
            simp only [h] <;> exact sendCount_get_echo_text o t
    | none =>
      cases vc with
      | some v =>
        dsimp only [dispatch]
        by_cases hys : cfg.ysApiKey.isNone
        · simp [hys, sendCount]
        · simp only [hys, if_false, Bool.false_eq_true]
          by_cases hdur : v.duration ≤ MAX_VOICE_DURATION
          · simp only [hdur, if_true, reduceIte]
            rcases h : (process_voice_message o ⟨mid, cid, none, none, some v⟩).1 with e | s <;>
              simp only [h] <;> exact sendCount_process_voice o _
          · simp only [hdur, reduceIte]
            rfl
      | none =>
        dsimp only [dispatch]
        rfl

/-- Every run of the handler performs at most one outbound send. -/
theorem handler_send_bound (cfg : Config) (o : Oracle) (e : Event) :
    sendCount (handler cfg o e).2 ≤ 1 := by
  by_cases htg : cfg.tgBotToken.isNone
  · simp [handler, htg, sendCount]
  · by_cases how : cfg.owApiKey.isNone
    · simp [handler, htg, how, sendCount]
    · rcases e with ⟨_ | (_ | ⟨_ | msg⟩)⟩
      · simp [handler, htg, how, sendCount]
      · simp [handler, htg, how, sendCount]
      · simp [handler, htg, how, sendCount]
      · have hd := dispatch_sends cfg o msg
        cases hdd : dispatch cfg o msg with
        | early r log =>
          rw [hdd] at hd
          simp [handler, htg, how, hdd, hd.1]
        | fail e2 log =>
          rw [hdd] at hd
          simp [handler, htg, how, hdd, hd]
        | echo t log =>
          rw [hdd] at hd
          have hd2 : sendCount log = 0 := hd
          simp [handler, htg, how, hdd, sendCount_append, hd2, sendCount_send_message_str]

/-- Every normal return of the handler is the fixed success envelope. -/
theorem handler_ok_envelope (cfg : Config) (o : Oracle) (e : Event) :
    ∀ x, (handler cfg o e).1 = Except.ok x → x = FUNC_RESPONSE := by
  intro x hx
  by_cases htg : cfg.tgBotToken.isNone
  · simp [handler, htg] at hx; exact hx.symm
  · by_cases how : cfg.owApiKey.isNone
    · simp [handler, htg, how] at hx; exact hx.symm
    · rcases e with ⟨_ | (_ | ⟨_ | msg⟩)⟩
      · simp [handler, htg, how] at hx
      · simp [handler, htg, how] at hx
      · simp [handler, htg, how] at hx; exact hx.symm
      · have hd := dispatch_sends cfg o msg
        cases hdd : dispatch cfg o msg with
        | early r log =>
          rw [hdd] at hd
          simp [handler, htg, how, hdd] at hx
          rw [← hx]
          exact hd.2
        | fail e2 log =>
          simp [handler, htg, how, hdd] at hx
        | echo t log =>
          simp [handler, htg, how, hdd] at hx
          exact hx.symm

/-- The voice pipeline's first outbound call is always the `getFile`
lookup for the voice's file id. -/
theorem voice_log_head (o : Oracle) (msg : Message) (v : Voice)
    (hv : msg.voice = some v) :
    ∃ rest, (process_voice_message o msg).2 = Call.getFile v.fileId :: rest := by
  dsimp only [process_voice_message]
  rw [hv]
  dsimp only
  cases hp : o.filePath v.fileId with
  | none => exact ⟨[], rfl⟩
  | some fp =>
    by_cases hs : (o.stt (o.download fp)).ok
    · simp only [hs, if_true]
      exact ⟨_, rfl⟩
    · simp only [hs, if_false, Bool.false_eq_true, reduceIte]
      exact ⟨_, rfl⟩

/-- The formatter succeeds exactly when every directly-indexed field is
present; `visibility` plays no role in success. -/
theorem format_weather_ok_iff (iw : WeatherResp) (tz : ℤ) :
    exceptOk (format_weather iw tz) = requiredPresent iw := by
  obtain ⟨w, m, vis, wind, sy⟩ := iw
  cases w with
  | none => rfl
  | some l =>
    cases l with
    | nil => rfl
    | cons c rest =>
      obtain ⟨desc⟩ := c
      cases desc with
      | none => rfl
      | some d =>
        cases m with
        | none => rfl
        | some mo =>
          obtain ⟨t, f, p, hu⟩ := mo
          cases t with
          | none => rfl
          | some tq =>
            cases f with
            | none => rfl
            | some fq =>
              cases p with
              | none => rfl
              | some pq =>
                cases hu with
                | none => rfl
                | some huq =>
                  cases wind with
                  | none => rfl
                  | some wo =>
                    obtain ⟨sp, dg⟩ := wo
                    cases sp with
                    | none => rfl
                    | some spq =>
                      cases dg with
                      | none => rfl
                      | some dgq =>
                        cases sy with
                        | none => rfl
                        | some so =>
                          obtain ⟨sr, ss⟩ := so
                          cases sr with
                          | none => rfl
                          | some srq =>
                            cases ss with
                            | none => rfl
                            | some ssq => rfl

/-- With all required fields present and `visibility` absent, the report
carries the no-data sentinel in the visibility slot. -/
theorem format_weather_vis_sentinel (iw : WeatherResp) (tz : ℤ)
    (hvis : iw.visibility = none) (hreq : requiredPresent iw = true) :
    ∃ d t f pr hu ws wd sr ss,
      format_weather iw tz =
        Except.ok (weather_report d t f pr hu "нет данных" ws wd sr ss) := by
  obtain ⟨w, m, vis, wind, sy⟩ := iw
  cases hvis
  cases w with
  | none => exact Bool.noConfusion hreq
  | some l =>
    cases l with
    | nil => exact Bool.noConfusion hreq
    | cons c rest =>
      obtain ⟨desc⟩ := c
      cases desc with
      | none => exact Bool.noConfusion hreq
      | some d =>
        cases m with
        | none => exact Bool.noConfusion hreq
        | some mo =>
          obtain ⟨t, f, p, hu⟩ := mo
          cases t with
          | none => exact Bool.noConfusion hreq
          | some tq =>
            cases f with
            | none => exact Bool.noConfusion hreq
            | some fq =>
              cases p with
              | none => exact Bool.noConfusion hreq
              | some pq =>
                cases hu with
                | none => exact Bool.noConfusion hreq
                | some huq =>
                  cases wind with
                  | none => exact Bool.noConfusion hreq
                  | some wo =>
                    obtain ⟨sp, dg⟩ := wo
                    cases sp with
                    | none => exact Bool.noConfusion hreq
                    | some spq =>
                      cases dg with
                      | none => exact Bool.noConfusion hreq
                      | some dgq =>
                        cases sy with
                        | none => exact Bool.noConfusion hreq
                        | some so =>
                          obtain ⟨sr, ss⟩ := so
                          cases sr with
                          | none => exact Bool.noConfusion hreq
                          | some srq =>
                            cases ss with
                            | none => exact Bool.noConfusion hreq
                            | some ssq =>
                              exact ⟨d, pyRound tq, pyRound fq,
                                pyRound (pq / (1333 / 1000)), pyRound huq, fmtQ spq,
                                get_wind_direction dgq,
                                get_time_from_timestamp tz srq,
                                get_time_from_timestamp tz ssq, rfl⟩

/-! ### Claims -/

/-- C1: for every invocation event whose body parses and contains a
message, the handler performs at most one outbound send, every normal
return is the fixed success envelope, and the `/start` branch — which
sends its own reply and returns early — results in exactly one send (its
whole call log is that single send), never two. -/
theorem handler_sends_at_most_once (cfg : Config) (o : Oracle) (u : Update)
    (msg : Message) (hm : u.message = some msg) :
    sendCount (handler cfg o ⟨some (Body.update u)⟩).2 ≤ 1 ∧
    (∀ x, (handler cfg o ⟨some (Body.update u)⟩).1 = Except.ok x → x = FUNC_RESPONSE) ∧
    (cfg.tgBotToken.isNone = false → cfg.owApiKey.isNone = false →
      msg.location = none → msg.text = some "/start" →
      handler cfg o ⟨some (Body.update u)⟩ =
        (Except.ok FUNC_RESPONSE, [Call.sendMessage msg.chatId msg.messageId startText])) := by
  refine ⟨handler_send_bound cfg o _, handler_ok_envelope cfg o _, ?_⟩
  intro htg how hloc htxt
  have hdisp : dispatch cfg o msg =
      DispatchStep.early FUNC_RESPONSE [Call.sendMessage msg.chatId msg.messageId startText] := by
    simp [dispatch, hloc, htxt, send_message]
  simp [handler, htg, how, hm, hdisp]

/-- Witness for C1: the `/start` event under a full configuration results
in exactly the one onboarding send and the fixed envelope. -/
theorem handler_sends_at_most_once_witness :
    handler fullConfig sampleOracle ⟨some (Body.update ⟨some startMessage⟩)⟩ =
      (Except.ok FUNC_RESPONSE,
        [Call.sendMessage startMessage.chatId startMessage.messageId startText]) :=
  (handler_sends_at_most_once fullConfig sampleOracle ⟨some startMessage⟩ startMessage rfl).2.2
    rfl rfl rfl rfl

/-- C2: when the messaging-platform credential is absent, or the
weather-provider credential is absent, or the parsed update lacks a
`message` key, the handler returns the fixed envelope
`(statusCode 200, body "")` and performs zero outbound sends (its call
log is empty). -/
theorem handler_guard_silent_noop (cfg : Config) (o : Oracle) (e : Event)
    (h : cfg.tgBotToken = none ∨ cfg.owApiKey = none ∨
      (∃ u, e.body = some (Body.update u) ∧ u.message = none)) :
    handler cfg o e = (Except.ok FUNC_RESPONSE, []) := by
  rcases h with h | h | ⟨u, hb, hm⟩
  · simp [handler, h]
  · by_cases htg : cfg.tgBotToken.isNone
    · simp [handler, htg]
    · simp [handler, htg, h]
  · by_cases htg : cfg.tgBotToken.isNone
    · simp [handler, htg]
    · by_cases how : cfg.owApiKey.isNone
      · simp [handler, htg, how]
      · simp [handler, htg, how, hb, hm]

/-- Witness for C2: with the bot token absent the handler is a silent
no-op on a well-formed update. -/
theorem handler_guard_silent_noop_witness :
    handler noTgConfig sampleOracle ⟨some (Body.update ⟨some startMessage⟩)⟩ =
      (Except.ok FUNC_RESPONSE, []) :=
  handler_guard_silent_noop noTgConfig sampleOracle _ (Or.inl rfl)

/-- C3 counterexample: with a full configuration, an event whose body does
not parse makes the handler raise `json.JSONDecodeError` rather than
return the empty success envelope — refuting the claim that such events
are silent no-ops that never raise. -/
theorem malformed_body_counterexample :
    (handler fullConfig sampleOracle ⟨some Body.malformed⟩).1 =
      Except.error PyErr.jsonDecodeError ∧
    ¬ handler fullConfig sampleOracle ⟨some Body.malformed⟩ =
        (Except.ok FUNC_RESPONSE, []) := by
  refine ⟨rfl, ?_⟩
  intro h
  have h1 := congrArg Prod.fst h
  exact Except.noConfusion h1

/-- C3 (amended): with the credentials configured, an event whose body
does not parse makes the handler raise `json.JSONDecodeError`, and an
event lacking a `body` field makes it raise `KeyError`; neither sends a
reply nor returns the success envelope.  Only a successfully parsed
update without a `message` key yields the silent empty-success no-op. -/
theorem malformed_body_raises (cfg : Config) (o : Oracle)
    (htg : cfg.tgBotToken.isNone = false) (how : cfg.owApiKey.isNone = false) :
    handler cfg o ⟨some Body.malformed⟩ = (Except.error PyErr.jsonDecodeError, []) ∧
    handler cfg o ⟨none⟩ = (Except.error PyErr.keyError, []) := by
  constructor <;> simp [handler, htg, how]

/-- Witness for the amended C3 at the full configuration. -/
theorem malformed_body_raises_witness :
    handler fullConfig sampleOracle ⟨some Body.malformed⟩ =
      (Except.error PyErr.jsonDecodeError, []) ∧
    handler fullConfig sampleOracle ⟨none⟩ = (Except.error PyErr.keyError, []) :=
  malformed_body_raises fullConfig sampleOracle rfl rfl

/-- C4: for every address, when the geocoder's HTTP call succeeds and the
first candidate's quality code is exactly 0 the resolver returns that
candidate's `(geo_lat, geo_lon)` pair, and on any other quality code or a
failed HTTP call it returns `(None, None)`. -/
theorem coords_quality_gate (o : Oracle) (address : String) (r : DadataResult)
    (rest : List DadataResult) (hres : (o.dadata address).results = r :: rest) :
    ((o.dadata address).ok = true → r.qc = 0 →
      (get_coords_from_address o address).1 = Except.ok (r.geoLat, r.geoLon)) ∧
    (((o.dadata address).ok = false ∨ r.qc ≠ 0) →
      (get_coords_from_address o address).1 = Except.ok (PyVal.null, PyVal.null)) := by
  constructor
  · intro hok hqc
    simp [get_coords_from_address, hok, hres, hqc]
  · rintro (hok | hqc)
    · simp [get_coords_from_address, hok]
    · by_cases hok : (o.dadata address).ok
      · simp [get_coords_from_address, hok, hres, hqc]
      · simp [get_coords_from_address, hok]

/-- Witness for C4: quality code 0 yields the provider's pair, quality
code 1 yields `(None, None)`. -/
theorem coords_quality_gate_witness :
    (get_coords_from_address sampleOracle "Москва").1 =
      Except.ok (PyVal.str "55.0", PyVal.str "37.0") ∧
    (get_coords_from_address badQcOracle "Москва").1 =
      Except.ok (PyVal.null, PyVal.null) :=
  ⟨(coords_quality_gate sampleOracle "Москва" ⟨0, PyVal.str "55.0", PyVal.str "37.0"⟩ []
      rfl).1 rfl rfl,
   (coords_quality_gate badQcOracle "Москва" ⟨1, PyVal.str "55.0", PyVal.str "37.0"⟩ []
      rfl).2 (Or.inr (by decide))⟩

/-- C5: for every wind bearing, the wind-direction function returns the
compass point (rendered in Russian) at index `round(degrees / 45) mod 8`
of the ordered list starting at North and proceeding clockwise; in
particular 0° maps to North, 40° to North-East and 360° to North. -/
theorem wind_direction_compass :
    (∀ d : ℚ, get_wind_direction d = russianPoint (wind_direction_spec d)) ∧
    directions = compassPoints.map russianPoint ∧
    get_wind_direction 0 = "С" ∧ get_wind_direction 40 = "СВ" ∧
    get_wind_direction 360 = "С" ∧
    wind_direction_spec 0 = "N" ∧ wind_direction_spec 40 = "NE" ∧
    wind_direction_spec 360 = "N" := by
  have h0 : pyRound ((0 : ℚ) / 45) = 0 := by simp only [pyRound]; norm_num
  have h40 : pyRound ((40 : ℚ) / 45) = 1 := by simp only [pyRound]; norm_num
  have h360 : pyRound ((360 : ℚ) / 45) = 8 := by simp only [pyRound]; norm_num
  refine ⟨?_, rfl, ?_, ?_, ?_, ?_, ?_, ?_⟩
  · intro d
    dsimp only [get_wind_direction, wind_direction_spec]
    have hn : 0 ≤ (pyRound (d / 45)).emod 8 := Int.emod_nonneg _ (by norm_num)
    have h8 : (pyRound (d / 45)).emod 8 < 8 := Int.emod_lt_of_pos _ (by norm_num)
    generalize hg : ((pyRound (d / 45)).emod 8).toNat = i
    have hlt : i < 8 := by omega
    interval_cases i <;> rfl
  · simp only [get_wind_direction, h0]; rfl
  · simp only [get_wind_direction, h40]; rfl
  · simp only [get_wind_direction, h360]; rfl
  · simp only [wind_direction_spec, h0]; rfl
  · simp only [wind_direction_spec, h40]; rfl
  · simp only [wind_direction_spec, h360]; rfl

/-- C6: for every complete provider response, the formatted report's
pressure slot is exactly `round(pressure_hPa / 1.333)`, and in particular
1013 hPa yields 760 mmHg. -/
theorem pressure_conversion (iw : WeatherResp) (tz : ℤ) (c : WeatherCond)
    (rest : List WeatherCond) (d : String) (m : WeatherMain) (t f p hu : ℚ)
    (w : WeatherWind) (ws wd : ℚ) (sy : WeatherSys) (sr ss : ℤ)
    (hw : iw.weather = some (c :: rest)) (hd : c.description = some d)
    (hm : iw.main = some m) (ht : m.temp = some t) (hf : m.feels_like = some f)
    (hp : m.pressure = some p) (hhu : m.humidity = some hu)
    (hwind : iw.wind = some w) (hws : w.speed = some ws) (hwd : w.deg = some wd)
    (hsys : iw.sys = some sy) (hsr : sy.sunrise = some sr) (hss : sy.sunset = some ss) :
    format_weather iw tz = Except.ok (weather_report d (pyRound t) (pyRound f)
      (pyRound (p / (1333 / 1000))) (pyRound hu) (visibility_display iw.visibility)
      (fmtQ ws) (get_wind_direction wd) (get_time_from_timestamp tz sr)
      (get_time_from_timestamp tz ss)) ∧
    pyRound ((1013 : ℚ) / (1333 / 1000)) = 760 := by
  constructor
  · simp [format_weather, getK, getIdx0, hw, hd, hm, ht, hf, hp, hhu, hwind, hws, hwd,
      hsys, hsr, hss, Bind.bind, Except.bind]
    rfl
  · simp only [pyRound]; norm_num

/-- Witness for C6: the sample response with 1013 hPa produces the report
with `round(1013 / 1.333) = 760` in the pressure slot. -/
theorem pressure_conversion_witness :
    format_weather sampleWeatherResp 10800 = Except.ok (weather_report "ясно"
      (pyRound 10) (pyRound 8) (pyRound ((1013 : ℚ) / (1333 / 1000))) (pyRound 50)
      (visibility_display sampleWeatherResp.visibility) (fmtQ 3) (get_wind_direction 40)
      (get_time_from_timestamp 10800 1600000000)
      (get_time_from_timestamp 10800 1600040000)) ∧
    pyRound ((1013 : ℚ) / (1333 / 1000)) = 760 :=
  pressure_conversion sampleWeatherResp 10800 ⟨some "ясно"⟩ [] "ясно"
    ⟨some 10, some 8, some 1013, some 50⟩ 10 8 1013 50 ⟨some 3, some 40⟩ 3 40
    ⟨some 1600000000, some 1600040000⟩ 1600000000 1600040000
    rfl rfl rfl rfl rfl rfl rfl rfl rfl rfl rfl rfl rfl

/-- C7: with the speech credential configured, a voice message longer than
30 seconds gets exactly the fixed "too long" reply and no call to the
file-download or transcription endpoints (the whole call log is that one
send), while a duration of at most 30 proceeds to transcription (the call
log starts with the `getFile` lookup). -/
theorem voice_too_long_guard (cfg : Config) (o : Oracle) (msg : Message) (v : Voice)
    (htg : cfg.tgBotToken.isNone = false) (how : cfg.owApiKey.isNone = false)
    (hys : cfg.ysApiKey.isNone = false)
    (hloc : msg.location = none) (htxt : msg.text = none) (hv : msg.voice = some v) :
    (MAX_VOICE_DURATION < v.duration →
      handler cfg o ⟨some (Body.update ⟨some msg⟩)⟩ =
        (Except.ok FUNC_RESPONSE,
          [Call.sendMessage msg.chatId msg.messageId tooLongText])) ∧
    (v.duration ≤ MAX_VOICE_DURATION →
      ∃ rest, (handler cfg o ⟨some (Body.update ⟨some msg⟩)⟩).2 =
        Call.getFile v.fileId :: rest) := by
  constructor
  · intro hdur
    have hnd : ¬ v.duration ≤ MAX_VOICE_DURATION := not_le.mpr hdur
    have hdisp : dispatch cfg o msg = DispatchStep.echo tooLongText [] := by
      simp [dispatch, hloc, htxt, hv, hys, hnd]
    simp [handler, htg, how, hdisp, send_message]
  · intro hdur
    obtain ⟨rest0, hrest⟩ := voice_log_head o msg v hv
    rcases hpm : (process_voice_message o msg).1 with e | s
    · have hdisp : dispatch cfg o msg =
          DispatchStep.fail e (process_voice_message o msg).2 := by
        simp [dispatch, hloc, htxt, hv, hys, hdur, hpm]
      refine ⟨rest0, ?_⟩
      simp [handler, htg, how, hdisp, hrest]
    · have hdisp : dispatch cfg o msg =
          DispatchStep.echo s (process_voice_message o msg).2 := by
        simp [dispatch, hloc, htxt, hv, hys, hdur, hpm]
      refine ⟨rest0 ++ send_message (Content.strC s) msg, ?_⟩
      simp [handler, htg, how, hdisp, hrest, send_message]

/-- Witness for C7: a 31-second voice message gets the fixed reply and no
other call. -/
theorem voice_too_long_guard_witness :
    handler fullConfig sampleOracle ⟨some (Body.update ⟨some longVoiceMessage⟩)⟩ =
      (Except.ok FUNC_RESPONSE,
        [Call.sendMessage longVoiceMessage.chatId longVoiceMessage.messageId
          tooLongText]) :=
  (voice_too_long_guard fullConfig sampleOracle longVoiceMessage ⟨"file-3", 31⟩
    rfl rfl rfl rfl rfl rfl).1 (by norm_num [MAX_VOICE_DURATION])

/-- C8: the formatter succeeds exactly when every directly-indexed field
(description, temperature, feels-like, pressure, humidity, wind speed,
wind bearing, sunrise, sunset) is present — a response missing any of them
makes it raise — and when only `visibility` is absent it degrades to the
"нет данных" sentinel in the visibility slot of the report. -/
theorem visibility_sentinel_only (iw : WeatherResp) (tz : ℤ) :
    exceptOk (format_weather iw tz) = requiredPresent iw ∧
    (iw.visibility = none → requiredPresent iw = true →
      ∃ d t f pr hu ws wd sr ss,
        format_weather iw tz =
          Except.ok (weather_report d t f pr hu "нет данных" ws wd sr ss)) :=
  ⟨format_weather_ok_iff iw tz,
   fun hv hr => format_weather_vis_sentinel iw tz hv hr⟩

/-- Witness for C8: the sample response without `visibility` formats
successfully with the sentinel. -/
theorem visibility_sentinel_only_witness :
    ∃ d t f pr hu ws wd sr ss,
      format_weather sampleWeatherRespNoVis 10800 =
        Except.ok (weather_report d t f pr hu "нет данных" ws wd sr ss) :=
  (visibility_sentinel_only sampleWeatherRespNoVis 10800).2 rfl rfl

/-- C9: the handler is a deterministic function of its event,
configuration and the collaborators' responses: two consecutive
invocations on the same event and same collaborator responses — the
second starting from the module state the first left behind — produce
identical results and byte-identical reply texts. -/
theorem handler_deterministic (st : Config) (o : Oracle) (e : Event) :
    (invoke_twice st o e).1 = (invoke_twice st o e).2 ∧
    replyTexts (invoke_twice st o e).1.2 = replyTexts (invoke_twice st o e).2.2 :=
  ⟨rfl, rfl⟩

/-- C10: when the geocoder resolves with quality code 0 but a falsy
coordinate (numeric 0, empty string or null), `get_echo_text` replies
that the place was not found — quoting the address — and never calls the
weather provider, because the code tests the coordinates for truthiness
(`if lat and lon`) rather than for being distinct from `None`. -/
theorem falsy_coords_not_found (o : Oracle) (address : String) (r : DadataResult)
    (rest : List DadataResult) (hok : (o.dadata address).ok = true)
    (hres : (o.dadata address).results = r :: rest) (hqc : r.qc = 0)
    (hfalsy : truthy r.geoLat = false ∨ truthy r.geoLon = false) :
    get_echo_text o address =
      (Except.ok (notFoundText address), [Call.dadataClean address]) := by
  have hcoords : (get_coords_from_address o address).1 =
      Except.ok (r.geoLat, r.geoLon) := by
    simp [get_coords_from_address, hok, hres, hqc]
  have hand : (truthy r.geoLat && truthy r.geoLon) = false := by
    rcases hfalsy with h | h <;> simp [h]
  simp only [get_echo_text, hcoords]
  rw [hand]
  simp [get_coords_from_address]

/-- Witness for C10: latitude `0` at quality code 0 produces the
not-found reply and only the geocoding call. -/
theorem falsy_coords_not_found_witness :
    get_echo_text falsyOracle "Нулевой остров" =
      (Except.ok (notFoundText "Нулевой остров"),
        [Call.dadataClean "Нулевой остров"]) :=
  falsy_coords_not_found falsyOracle "Нулевой остров" ⟨0, PyVal.num 0, PyVal.str "37.0"⟩
    [] rfl rfl rfl (Or.inl (by decide))
